import Mathlib

/-!
Shallow embedding of `source/ProcessHerpaderping/herpaderp.cpp`
(`Herpaderp::ExecuteProcess`), the process-herpaderping pipeline.

The function is a single linear fail-fast sequence of OS / collaborator
calls. Each call's outcome (success flag, error code, payload) is supplied
by an `Env` record, so `ExecuteProcess` is a deterministic function of the
request and the environment. The embedding records, besides the returned
result, the sequence of calls performed (`trace`), the target file's
on-disk bytes, the bytes pinned into the image section, and the state of
the constructed process, so that the ordering, rollback and frame
properties of the pipeline can be stated and proved.
-/

namespace Herpaderping

/-- File contents as a list of byte values. -/
abbrev Bytes := List Nat

/-- Tile a pattern over a region of `n` bytes (pattern repeated and
truncated to fit, as the spec describes the filler pattern). -/
def patternTile (pattern : Bytes) (n : Nat) : Bytes :=
  (List.range n).map fun i => pattern.getD (i % pattern.length) 0

/-- `NT_SUCCESS(status)`: an NTSTATUS is a signed 32-bit value, success is
non-negative. -/
def NT_SUCCESS (s : Int) : Bool := decide (0 ≤ s)

/-- `FAILED(hr)`: an HRESULT is a signed 32-bit value, failure is negative. -/
def FAILED (hr : Int) : Bool := decide (hr < 0)

/-- Reinterpret a 32-bit unsigned value as a signed 32-bit integer. -/
def toSigned32 (w : Nat) : Int :=
  if w % 2 ^ 32 < 2 ^ 31 then ((w % 2 ^ 32 : Nat) : Int)
  else ((w % 2 ^ 32 : Nat) : Int) - 2 ^ 32

/-- `HRESULT_FROM_WIN32`: map a Win32 error code to an HRESULT
(`0` stays `0`; otherwise the low 16 bits are combined with
`FACILITY_WIN32` and the severity bit, read back as signed 32-bit). -/
def HRESULT_FROM_WIN32 (e : Nat) : Int :=
  if e = 0 then 0 else toSigned32 (e % 2 ^ 16 ||| 0x80070000)

/-- Win32 `ERROR_USER_MAPPED_FILE` (1224): truncation refused because the
file has an active user mapping. -/
def ERROR_USER_MAPPED_FILE : Nat := 1224

/-- An error as propagated by `ExecuteProcess`: the three return macros of
the source (`RETURN_LAST_ERROR`, `RETURN_HR`, `RETURN_NTSTATUS`), each
carrying the original code of the failing call. -/
inductive Err where
  | lastError (code : Nat)
  | hresult (hr : Int)
  | ntstatus (s : Int)
deriving DecidableEq

/-- The observable calls `ExecuteProcess` performs, in program order. -/
inductive Event where
  | openSource
  | openTarget
  | copySourceToTarget
  | closeSourceHandle
  | createSection
  | createProcess
  | closeSectionHandle
  | getEntryRva
  | openReplaceWith
  | copyReplaceToTarget
  | getReplaceWithSize
  | overwriteAfterWithPattern
  | extendSecurityDirectory
  | overwritePattern
  | queryProcessInfo
  | readPeb
  | writeProcessParameters
  | createThread
  | disarmGuard
  | closeTargetHandle
  | waitForProcess
  | terminateProcess
deriving DecidableEq

/-- The caller's request: the parameters of `Herpaderp::ExecuteProcess`. -/
structure Request where
  targetBinary : String
  fileName : String
  replaceWith : Option String
  pattern : Bytes
  waitForProcess : Bool
  holdHandleExclusive : Bool

/-- Environment: the outcome each OS / collaborator call would produce if
performed. Payload fields (`sourceBytes`, `replaceBytes`, ...) model the
file contents and remote-process data involved. -/
structure Env where
  openSourceOk : Bool
  openSourceErr : Nat
  openTargetOk : Bool
  openTargetErr : Nat
  copyHr : Int
  sourceBytes : Bytes
  createSectionStatus : Int
  createProcessStatus : Int
  entryHr : Int
  entryRva : Nat
  openReplaceOk : Bool
  openReplaceErr : Nat
  replaceBytes : Bytes
  copyReplaceHr : Int
  getReplaceSizeHr : Int
  overwriteAfterHr : Int
  extendSecDirHr : Int
  overwritePatternHr : Int
  queryInfoStatus : Int
  readPebOk : Bool
  readPebErr : Nat
  imageBase : Nat
  writeParamsHr : Int
  createThreadStatus : Int
  exitCode : Nat
  partialWriteDisk : Bytes

/-- The observable outcome of one run of `ExecuteProcess`. -/
structure Outcome where
  result : Except Err Int
  trace : List Event
  targetDisk : Option Bytes
  executedImage : Option Bytes
  processCreated : Bool
  processTerminated : Bool
  threadCreated : Bool
  threadEntry : Option Nat
  writtenParamsPath : Option String
  loggedExitCode : Option Nat

/-- Failure exit taken while no process object exists: the `scope_exit`
guard runs but finds no valid process handle, so nothing is terminated. -/
def failNoProc (tr : List Event) (disk : Option Bytes) (img : Option Bytes)
    (e : Err) : Outcome :=
  { result := .error e, trace := tr, targetDisk := disk, executedImage := img,
    processCreated := false, processTerminated := false, threadCreated := false,
    threadEntry := none, writtenParamsPath := none, loggedExitCode := none }

/-- Failure exit taken after `NtCreateProcessEx` succeeded and before the
guard is disarmed: the `scope_exit` guard terminates the half-built
process. -/
def failProc (tr : List Event) (disk : Bytes) (img : Option Bytes)
    (wp : Option String) (e : Err) : Outcome :=
  { result := .error e, trace := tr ++ [Event.terminateProcess],
    targetDisk := some disk, executedImage := img,
    processCreated := true, processTerminated := true, threadCreated := false,
    threadEntry := none, writtenParamsPath := wp, loggedExitCode := none }

/-- Modelled from the spec: `Utils::OverwriteFileContentsWithPattern`
(not under `src/`) overwrites the entire file's bytes with the repeating
filler pattern. -/
def OverwriteFileContentsWithPattern (disk : Bytes) (pattern : Bytes) : Bytes :=
  patternTile pattern disk.length

/-- Modelled from the spec: `Utils::OverwriteFileAfterWithPattern`
(not under `src/`) overwrites the bytes beyond `offset` with the repeating
filler pattern, reporting how many bytes it wrote. -/
def OverwriteFileAfterWithPattern (disk : Bytes) (offset : Nat)
    (pattern : Bytes) : Bytes × Nat :=
  (disk.take offset ++ patternTile pattern (disk.length - offset),
   disk.length - offset)

/-- The bootstrap tail of the pipeline, entered once content substitution
is done: query process info, read the PEB, write the process parameters
(the decoy path as nominal command line), create the initial thread at
image base + entry RVA, disarm the rollback guard, optionally close the
target handle and optionally wait for exit (lines 277-388 of the source). -/
def bootstrapTail (req : Request) (env : Env) (tr0 : List Event)
    (disk : Bytes) : Outcome :=
  let img : Option Bytes := some env.sourceBytes
  let tr1 := tr0 ++ [Event.queryProcessInfo]
  if NT_SUCCESS env.queryInfoStatus = false then
    failProc tr1 disk img none (Err.ntstatus env.queryInfoStatus)
  else
  let tr2 := tr1 ++ [Event.readPeb]
  if env.readPebOk = false then
    failProc tr2 disk img none (Err.lastError env.readPebErr)
  else
  let tr3 := tr2 ++ [Event.writeProcessParameters]
  if FAILED env.writeParamsHr = true then
    failProc tr3 disk img none (Err.hresult env.writeParamsHr)
  else
  let wp : Option String := some req.fileName
  let tr4 := tr3 ++ [Event.createThread]
  if NT_SUCCESS env.createThreadStatus = false then
    failProc tr4 disk img wp (Err.ntstatus env.createThreadStatus)
  else
  let entry : Option Nat := some (env.imageBase + env.entryRva)
  let tr5 := tr4 ++ [Event.disarmGuard]
  let tr6 := if req.holdHandleExclusive then tr5
             else tr5 ++ [Event.closeTargetHandle]
  if req.waitForProcess then
    { result := .ok 0, trace := tr6 ++ [Event.waitForProcess],
      targetDisk := some disk, executedImage := img,
      processCreated := true, processTerminated := false,
      threadCreated := true, threadEntry := entry,
      writtenParamsPath := wp, loggedExitCode := some env.exitCode }
  else
    { result := .ok 0, trace := tr6, targetDisk := some disk,
      executedImage := img, processCreated := true,
      processTerminated := false, threadCreated := true,
      threadEntry := entry, writtenParamsPath := wp, loggedExitCode := none }

/-- The content-substitution stage (lines 167-269 of the source): either
replace the target's bytes with another file's bytes — with the
mapped-file truncation race downgraded to the hide-tail fallback — or
overwrite the whole target with the filler pattern. -/
def substituteStage (req : Request) (env : Env) (tr0 : List Event)
    (disk : Bytes) : Outcome :=
  let img : Option Bytes := some env.sourceBytes
  match req.replaceWith with
  | some _ =>
    let tr1 := tr0 ++ [Event.openReplaceWith]
    if env.openReplaceOk = false then
      failProc tr1 disk img none (Err.lastError env.openReplaceErr)
    else
    let tr2 := tr1 ++ [Event.copyReplaceToTarget]
    if FAILED env.copyReplaceHr = true then
      if env.copyReplaceHr = HRESULT_FROM_WIN32 ERROR_USER_MAPPED_FILE then
        -- replacement bytes were written but the tail could not be truncated
        let disk1 := env.replaceBytes ++ disk.drop env.replaceBytes.length
        let tr3 := tr2 ++ [Event.getReplaceWithSize]
        if FAILED env.getReplaceSizeHr = true then
          failProc tr3 disk1 img none (Err.hresult env.getReplaceSizeHr)
        else
        let tr4 := tr3 ++ [Event.overwriteAfterWithPattern]
        if FAILED env.overwriteAfterHr = true then
          bootstrapTail req env tr4 env.partialWriteDisk
        else
          let res := OverwriteFileAfterWithPattern disk1 env.replaceBytes.length
                       req.pattern
          bootstrapTail req env (tr4 ++ [Event.extendSecurityDirectory]) res.1
      else
        failProc tr2 env.partialWriteDisk img none (Err.hresult env.copyReplaceHr)
    else
      bootstrapTail req env tr2 env.replaceBytes
  | none =>
    let tr1 := tr0 ++ [Event.overwritePattern]
    if FAILED env.overwritePatternHr = true then
      failProc tr1 env.partialWriteDisk img none
        (Err.hresult env.overwritePatternHr)
    else
      bootstrapTail req env tr1 (OverwriteFileContentsWithPattern disk req.pattern)

/-- `Herpaderp::ExecuteProcess`: the full pipeline. Open source and target
files, copy source to target, close the source handle, create the image
section from the target's current bytes, create the process from the
section, close the section handle, resolve the entry RVA, substitute the
target's content, then bootstrap the process. -/
def ExecuteProcess (req : Request) (env : Env) : Outcome :=
  let trA := [Event.openSource]
  if env.openSourceOk = false then
    failNoProc trA none none (Err.lastError env.openSourceErr)
  else
  let trB := trA ++ [Event.openTarget]
  if env.openTargetOk = false then
    failNoProc trB none none (Err.lastError env.openTargetErr)
  else
  let trC := trB ++ [Event.copySourceToTarget]
  if FAILED env.copyHr = true then
    failNoProc trC (some env.partialWriteDisk) none (Err.hresult env.copyHr)
  else
  let disk := env.sourceBytes
  let trD := trC ++ [Event.closeSourceHandle, Event.createSection]
  if NT_SUCCESS env.createSectionStatus = false then
    failNoProc trD (some disk) none (Err.ntstatus env.createSectionStatus)
  else
  -- the section pins the target's current (source-copied) bytes
  let img : Option Bytes := some disk
  let trE := trD ++ [Event.createProcess]
  if NT_SUCCESS env.createProcessStatus = false then
    failNoProc trE (some disk) img (Err.ntstatus env.createProcessStatus)
  else
  let trF := trE ++ [Event.closeSectionHandle, Event.getEntryRva]
  if FAILED env.entryHr = true then
    failProc trF disk img none (Err.hresult env.entryHr)
  else
    substituteStage req env trF disk

/-- The error codes the environment hands to the pipeline's fallible calls:
any error `ExecuteProcess` returns is one of these, verbatim. -/
def envErrors (env : Env) : List Err :=
  [Err.lastError env.openSourceErr, Err.lastError env.openTargetErr,
   Err.hresult env.copyHr, Err.ntstatus env.createSectionStatus,
   Err.ntstatus env.createProcessStatus, Err.hresult env.entryHr,
   Err.lastError env.openReplaceErr, Err.hresult env.copyReplaceHr,
   Err.hresult env.getReplaceSizeHr, Err.hresult env.overwritePatternHr,
   Err.ntstatus env.queryInfoStatus, Err.lastError env.readPebErr,
   Err.hresult env.writeParamsHr, Err.ntstatus env.createThreadStatus]

/-- `b` occurs in the trace only if `a` occurred strictly before it. -/
abbrev RequiredBefore (a b : Event) (t : List Event) : Prop :=
  b ∈ t → a ∈ t ∧ t.indexOf a < t.indexOf b

/-- Whenever both events occur in the trace, `a` occurs strictly before
`b`. -/
abbrev BeforeIfBoth (a b : Event) (t : List Event) : Prop :=
  a ∈ t → b ∈ t → t.indexOf a < t.indexOf b

/-- `b` occurs in the trace at the position immediately after `a`. -/
abbrev ImmediatelyAfter (b a : Event) (t : List Event) : Prop :=
  a ∈ t ∧ b ∈ t ∧ t.indexOf b = t.indexOf a + 1

/-- `true` iff the result is a success. -/
def resultOk : Except Err Int → Bool
  | .ok _ => true
  | .error _ => false

/-- The trace suffixes `bootstrapTail` can append to its input trace,
together with the resulting (processCreated, processTerminated,
threadCreated, resultOk) flags. -/
def bootShapes : List (List Event × Bool × Bool × Bool × Bool) :=
  [([Event.queryProcessInfo, Event.terminateProcess], true, true, false, false),
   ([Event.queryProcessInfo, Event.readPeb, Event.terminateProcess],
    true, true, false, false),
   ([Event.queryProcessInfo, Event.readPeb, Event.writeProcessParameters,
     Event.terminateProcess], true, true, false, false),
   ([Event.queryProcessInfo, Event.readPeb, Event.writeProcessParameters,
     Event.createThread, Event.terminateProcess], true, true, false, false),
   ([Event.queryProcessInfo, Event.readPeb, Event.writeProcessParameters,
     Event.createThread, Event.disarmGuard], true, false, true, true),
   ([Event.queryProcessInfo, Event.readPeb, Event.writeProcessParameters,
     Event.createThread, Event.disarmGuard, Event.closeTargetHandle],
    true, false, true, true),
   ([Event.queryProcessInfo, Event.readPeb, Event.writeProcessParameters,
     Event.createThread, Event.disarmGuard, Event.waitForProcess],
    true, false, true, true),
   ([Event.queryProcessInfo, Event.readPeb, Event.writeProcessParameters,
     Event.createThread, Event.disarmGuard, Event.closeTargetHandle,
     Event.waitForProcess], true, false, true, true)]

theorem bootstrapTail_shape (req : Request) (env : Env) (tr0 : List Event)
    (disk : Bytes) :
    ∃ s ∈ bootShapes,
      (bootstrapTail req env tr0 disk).trace = tr0 ++ s.1 ∧
      (bootstrapTail req env tr0 disk).processCreated = s.2.1 ∧
      (bootstrapTail req env tr0 disk).processTerminated = s.2.2.1 ∧
      (bootstrapTail req env tr0 disk).threadCreated = s.2.2.2.1 ∧
      resultOk (bootstrapTail req env tr0 disk).result = s.2.2.2.2 := by
  unfold bootstrapTail
  split_ifs
  · exact ⟨([Event.queryProcessInfo, Event.terminateProcess],
      true, true, false, false),
      by decide, by simp [failProc], rfl, rfl, rfl, rfl⟩
  · exact ⟨([Event.queryProcessInfo, Event.readPeb, Event.terminateProcess],
      true, true, false, false), by decide, by simp [failProc], rfl, rfl, rfl, rfl⟩
  · exact ⟨([Event.queryProcessInfo, Event.readPeb, Event.writeProcessParameters,
      Event.terminateProcess], true, true, false, false),
      by decide, by simp [failProc], rfl, rfl, rfl, rfl⟩
  · exact ⟨([Event.queryProcessInfo, Event.readPeb, Event.writeProcessParameters,
      Event.createThread, Event.terminateProcess], true, true, false, false),
      by decide, by simp [failProc], rfl, rfl, rfl, rfl⟩
  · exact ⟨([Event.queryProcessInfo, Event.readPeb, Event.writeProcessParameters,
      Event.createThread, Event.disarmGuard, Event.waitForProcess],
      true, false, true, true), by decide, by simp, rfl, rfl, rfl, rfl⟩
  · exact ⟨([Event.queryProcessInfo, Event.readPeb, Event.writeProcessParameters,
      Event.createThread, Event.disarmGuard], true, false, true, true),
      by decide, by simp, rfl, rfl, rfl, rfl⟩
  · exact ⟨([Event.queryProcessInfo, Event.readPeb, Event.writeProcessParameters,
      Event.createThread, Event.disarmGuard, Event.closeTargetHandle,
      Event.waitForProcess], true, false, true, true),
      by decide, by simp, rfl, rfl, rfl, rfl⟩
  · exact ⟨([Event.queryProcessInfo, Event.readPeb, Event.writeProcessParameters,
      Event.createThread, Event.disarmGuard, Event.closeTargetHandle],
      true, false, true, true), by decide, by simp, rfl, rfl, rfl, rfl⟩

/-- The trace suffixes `substituteStage` can append, with resulting flags. -/
def substShapes : List (List Event × Bool × Bool × Bool × Bool) :=
  [([Event.openReplaceWith, Event.terminateProcess], true, true, false, false),
   ([Event.openReplaceWith, Event.copyReplaceToTarget, Event.terminateProcess],
    true, true, false, false),
   ([Event.openReplaceWith, Event.copyReplaceToTarget, Event.getReplaceWithSize,
     Event.terminateProcess], true, true, false, false),
   ([Event.overwritePattern, Event.terminateProcess], true, true, false, false)]
  ++ bootShapes.map (fun s =>
      (Event.openReplaceWith :: Event.copyReplaceToTarget :: s.1, s.2))
  ++ bootShapes.map (fun s =>
      (Event.openReplaceWith :: Event.copyReplaceToTarget ::
       Event.getReplaceWithSize :: Event.overwriteAfterWithPattern :: s.1, s.2))
  ++ bootShapes.map (fun s =>
      (Event.openReplaceWith :: Event.copyReplaceToTarget ::
       Event.getReplaceWithSize :: Event.overwriteAfterWithPattern ::
       Event.extendSecurityDirectory :: s.1, s.2))
  ++ bootShapes.map (fun s => (Event.overwritePattern :: s.1, s.2))

theorem mem_substShapes_copyOk {s : List Event × Bool × Bool × Bool × Bool}
    (hs : s ∈ bootShapes) :
    (Event.openReplaceWith :: Event.copyReplaceToTarget :: s.1, s.2)
      ∈ substShapes :=
  List.mem_append_left _ (List.mem_append_left _ (List.mem_append_left _
    (List.mem_append_right _ (List.mem_map_of_mem _ hs))))

theorem mem_substShapes_hideFail {s : List Event × Bool × Bool × Bool × Bool}
    (hs : s ∈ bootShapes) :
    (Event.openReplaceWith :: Event.copyReplaceToTarget ::
     Event.getReplaceWithSize :: Event.overwriteAfterWithPattern :: s.1, s.2)
      ∈ substShapes :=
  List.mem_append_left _ (List.mem_append_left _
    (List.mem_append_right _ (List.mem_map_of_mem _ hs)))

theorem mem_substShapes_hideOk {s : List Event × Bool × Bool × Bool × Bool}
    (hs : s ∈ bootShapes) :
    (Event.openReplaceWith :: Event.copyReplaceToTarget ::
     Event.getReplaceWithSize :: Event.overwriteAfterWithPattern ::
     Event.extendSecurityDirectory :: s.1, s.2) ∈ substShapes :=
  List.mem_append_left _
    (List.mem_append_right _ (List.mem_map_of_mem _ hs))

theorem mem_substShapes_patternOk {s : List Event × Bool × Bool × Bool × Bool}
    (hs : s ∈ bootShapes) :
    (Event.overwritePattern :: s.1, s.2) ∈ substShapes :=
  List.mem_append_right _ (List.mem_map_of_mem _ hs)

theorem substituteStage_shape (req : Request) (env : Env) (tr0 : List Event)
    (disk : Bytes) :
    ∃ s ∈ substShapes,
      (substituteStage req env tr0 disk).trace = tr0 ++ s.1 ∧
      (substituteStage req env tr0 disk).processCreated = s.2.1 ∧
      (substituteStage req env tr0 disk).processTerminated = s.2.2.1 ∧
      (substituteStage req env tr0 disk).threadCreated = s.2.2.2.1 ∧
      resultOk (substituteStage req env tr0 disk).result = s.2.2.2.2 := by
  cases hrw : req.replaceWith with
  | some p =>
    simp only [substituteStage, hrw]
    split_ifs
    · exact ⟨([Event.openReplaceWith, Event.terminateProcess],
        true, true, false, false), by decide, by simp [failProc],
        rfl, rfl, rfl, rfl⟩
    · exact ⟨([Event.openReplaceWith, Event.copyReplaceToTarget,
        Event.getReplaceWithSize, Event.terminateProcess],
        true, true, false, false), by decide, by simp [failProc],
        rfl, rfl, rfl, rfl⟩
    · obtain ⟨s, hs, htr, h1, h2, h3, h4⟩ := bootstrapTail_shape req env
        (tr0 ++ [Event.openReplaceWith] ++ [Event.copyReplaceToTarget] ++
          [Event.getReplaceWithSize] ++ [Event.overwriteAfterWithPattern])
        env.partialWriteDisk
      exact ⟨_, mem_substShapes_hideFail hs, by simp only [htr]; simp,
        h1, h2, h3, h4⟩
    · obtain ⟨s, hs, htr, h1, h2, h3, h4⟩ := bootstrapTail_shape req env
        (tr0 ++ [Event.openReplaceWith] ++ [Event.copyReplaceToTarget] ++
          [Event.getReplaceWithSize] ++ [Event.overwriteAfterWithPattern] ++
          [Event.extendSecurityDirectory])
        (OverwriteFileAfterWithPattern
          (env.replaceBytes ++ disk.drop env.replaceBytes.length)
          env.replaceBytes.length req.pattern).1
      exact ⟨_, mem_substShapes_hideOk hs, by simp only [htr]; simp,
        h1, h2, h3, h4⟩
    · exact ⟨([Event.openReplaceWith, Event.copyReplaceToTarget,
        Event.terminateProcess], true, true, false, false),
        by decide, by simp [failProc], rfl, rfl, rfl, rfl⟩
    · obtain ⟨s, hs, htr, h1, h2, h3, h4⟩ := bootstrapTail_shape req env
        (tr0 ++ [Event.openReplaceWith] ++ [Event.copyReplaceToTarget])
        env.replaceBytes
      exact ⟨_, mem_substShapes_copyOk hs, by simp only [htr]; simp,
        h1, h2, h3, h4⟩
  | none =>
    simp only [substituteStage, hrw]
    split_ifs
    · exact ⟨([Event.overwritePattern, Event.terminateProcess],
        true, true, false, false), by decide, by simp [failProc],
        rfl, rfl, rfl, rfl⟩
    · obtain ⟨s, hs, htr, h1, h2, h3, h4⟩ := bootstrapTail_shape req env
        (tr0 ++ [Event.overwritePattern])
        (OverwriteFileContentsWithPattern disk req.pattern)
      exact ⟨_, mem_substShapes_patternOk hs, by simp only [htr]; simp,
        h1, h2, h3, h4⟩

/-- The trace common to every run that reaches content substitution. -/
def trPre : List Event :=
  [Event.openSource, Event.openTarget, Event.copySourceToTarget,
   Event.closeSourceHandle, Event.createSection, Event.createProcess,
   Event.closeSectionHandle, Event.getEntryRva]

/-- Every (trace, processCreated, processTerminated, threadCreated,
resultOk) tuple `ExecuteProcess` can produce. -/
def execShapes : List (List Event × Bool × Bool × Bool × Bool) :=
  [([Event.openSource], false, false, false, false),
   ([Event.openSource, Event.openTarget], false, false, false, false),
   ([Event.openSource, Event.openTarget, Event.copySourceToTarget],
    false, false, false, false),
   ([Event.openSource, Event.openTarget, Event.copySourceToTarget,
     Event.closeSourceHandle, Event.createSection], false, false, false, false),
   ([Event.openSource, Event.openTarget, Event.copySourceToTarget,
     Event.closeSourceHandle, Event.createSection, Event.createProcess],
    false, false, false, false),
   (trPre ++ [Event.terminateProcess], true, true, false, false)]
  ++ substShapes.map (fun s => (trPre ++ s.1, s.2))

theorem mem_execShapes_subst {s : List Event × Bool × Bool × Bool × Bool}
    (hs : s ∈ substShapes) : (trPre ++ s.1, s.2) ∈ execShapes :=
  List.mem_append_right _ (List.mem_map_of_mem _ hs)

/-- Master structural lemma: every run's trace and process flags match one
of the finitely many shapes. -/
theorem ExecuteProcess_shape (req : Request) (env : Env) :
    ∃ s ∈ execShapes,
      (ExecuteProcess req env).trace = s.1 ∧
      (ExecuteProcess req env).processCreated = s.2.1 ∧
      (ExecuteProcess req env).processTerminated = s.2.2.1 ∧
      (ExecuteProcess req env).threadCreated = s.2.2.2.1 ∧
      resultOk (ExecuteProcess req env).result = s.2.2.2.2 := by
  unfold ExecuteProcess
  split_ifs
  · exact ⟨([Event.openSource], false, false, false, false),
      by decide, by simp [failNoProc], rfl, rfl, rfl, rfl⟩
  · exact ⟨([Event.openSource, Event.openTarget], false, false, false, false),
      by decide, by simp [failNoProc], rfl, rfl, rfl, rfl⟩
  · exact ⟨([Event.openSource, Event.openTarget, Event.copySourceToTarget],
      false, false, false, false),
      by decide, by simp [failNoProc], rfl, rfl, rfl, rfl⟩
  · exact ⟨([Event.openSource, Event.openTarget, Event.copySourceToTarget,
      Event.closeSourceHandle, Event.createSection], false, false, false, false),
      by decide, by simp [failNoProc], rfl, rfl, rfl, rfl⟩
  · exact ⟨([Event.openSource, Event.openTarget, Event.copySourceToTarget,
      Event.closeSourceHandle, Event.createSection, Event.createProcess],
      false, false, false, false),
      by decide, by simp [failNoProc], rfl, rfl, rfl, rfl⟩
  · exact ⟨(trPre ++ [Event.terminateProcess], true, true, false, false),
      by decide, by simp [failProc, trPre], rfl, rfl, rfl, rfl⟩
  · obtain ⟨s, hs, htr, h1, h2, h3, h4⟩ := substituteStage_shape req env
      ([Event.openSource] ++ [Event.openTarget] ++ [Event.copySourceToTarget] ++
        [Event.closeSourceHandle, Event.createSection] ++ [Event.createProcess] ++
        [Event.closeSectionHandle, Event.getEntryRva])
      env.sourceBytes
    exact ⟨_, mem_execShapes_subst hs, by simp only [htr]; simp [trPre],
      h1, h2, h3, h4⟩

theorem bootstrapTail_img (req : Request) (env : Env) (tr0 : List Event)
    (disk : Bytes) :
    (bootstrapTail req env tr0 disk).executedImage = some env.sourceBytes := by
  unfold bootstrapTail
  split_ifs <;> rfl

theorem bootstrapTail_disk (req : Request) (env : Env) (tr0 : List Event)
    (disk : Bytes) :
    (bootstrapTail req env tr0 disk).targetDisk = some disk := by
  unfold bootstrapTail
  split_ifs <;> rfl

theorem substituteStage_img (req : Request) (env : Env) (tr0 : List Event)
    (disk : Bytes) :
    (substituteStage req env tr0 disk).executedImage = some env.sourceBytes := by
  cases hrw : req.replaceWith <;>
    simp only [substituteStage, hrw] <;>
    split_ifs <;> first | rfl | apply bootstrapTail_img

theorem bootstrapTail_err (req : Request) (env : Env) (tr0 : List Event)
    (disk : Bytes) (e : Err) :
    (bootstrapTail req env tr0 disk).result = Except.error e →
    e ∈ envErrors env := by
  unfold bootstrapTail
  split_ifs <;> intro h <;>
    simp only [failProc, Outcome.mk.injEq] at h <;>
    (cases h; simp [envErrors])

theorem substituteStage_err (req : Request) (env : Env) (tr0 : List Event)
    (disk : Bytes) (e : Err) :
    (substituteStage req env tr0 disk).result = Except.error e →
    e ∈ envErrors env := by
  cases hrw : req.replaceWith <;>
    simp only [substituteStage, hrw] <;>
    split_ifs <;>
    first
    | apply bootstrapTail_err
    | (intro h; simp only [failProc, Outcome.mk.injEq] at h; cases h;
       simp [envErrors])

theorem ExecuteProcess_err (req : Request) (env : Env) (e : Err) :
    (ExecuteProcess req env).result = Except.error e → e ∈ envErrors env := by
  unfold ExecuteProcess
  split_ifs <;>
    first
    | apply substituteStage_err
    | (intro h; simp only [failProc, failNoProc, Outcome.mk.injEq] at h; cases h;
       simp [envErrors])

theorem ExecuteProcess_img (req : Request) (env : Env) :
    (ExecuteProcess req env).processCreated = true →
    (ExecuteProcess req env).executedImage = some env.sourceBytes := by
  unfold ExecuteProcess
  split_ifs <;> intro h <;>
    first
    | rfl
    | apply substituteStage_img
    | simp [failNoProc] at h

/-- Facts about every successful run (thread created): its result, thread
entry address, written parameters, logged exit code, and the dependence of
the wait / close-target events on the request flags. -/
theorem bootstrapTail_success (req : Request) (env : Env) (tr0 : List Event)
    (disk : Bytes)
    (hw : Event.waitForProcess ∉ tr0) (hc : Event.closeTargetHandle ∉ tr0) :
    (bootstrapTail req env tr0 disk).threadCreated = true →
    (bootstrapTail req env tr0 disk).result = Except.ok 0 ∧
    (bootstrapTail req env tr0 disk).threadEntry
      = some (env.imageBase + env.entryRva) ∧
    (bootstrapTail req env tr0 disk).writtenParamsPath = some req.fileName ∧
    (req.waitForProcess = true →
      (bootstrapTail req env tr0 disk).loggedExitCode = some env.exitCode) ∧
    (req.waitForProcess = false →
      (bootstrapTail req env tr0 disk).loggedExitCode = none) ∧
    (Event.waitForProcess ∈ (bootstrapTail req env tr0 disk).trace
      ↔ req.waitForProcess = true) ∧
    (Event.closeTargetHandle ∈ (bootstrapTail req env tr0 disk).trace
      ↔ req.holdHandleExclusive = false) := by
  unfold bootstrapTail
  split_ifs <;> intro h <;>
    first
    | (refine ⟨rfl, rfl, rfl, ?_, ?_, ?_, ?_⟩ <;> simp_all)
    | simp [failProc] at h

theorem substituteStage_success (req : Request) (env : Env) (tr0 : List Event)
    (disk : Bytes)
    (hw : Event.waitForProcess ∉ tr0) (hc : Event.closeTargetHandle ∉ tr0) :
    (substituteStage req env tr0 disk).threadCreated = true →
    (substituteStage req env tr0 disk).result = Except.ok 0 ∧
    (substituteStage req env tr0 disk).threadEntry
      = some (env.imageBase + env.entryRva) ∧
    (substituteStage req env tr0 disk).writtenParamsPath = some req.fileName ∧
    (req.waitForProcess = true →
      (substituteStage req env tr0 disk).loggedExitCode = some env.exitCode) ∧
    (req.waitForProcess = false →
      (substituteStage req env tr0 disk).loggedExitCode = none) ∧
    (Event.waitForProcess ∈ (substituteStage req env tr0 disk).trace
      ↔ req.waitForProcess = true) ∧
    (Event.closeTargetHandle ∈ (substituteStage req env tr0 disk).trace
      ↔ req.holdHandleExclusive = false) := by
  cases hrw : req.replaceWith <;>
    simp only [substituteStage, hrw] <;>
    split_ifs <;>
    first
    | (exact fun h => bootstrapTail_success req env _ _
        (by simp [hw]) (by simp [hc]) h)
    | (intro h; simp only [failProc] at h; simp at h)

theorem ExecuteProcess_success (req : Request) (env : Env) :
    (ExecuteProcess req env).threadCreated = true →
    (ExecuteProcess req env).result = Except.ok 0 ∧
    (ExecuteProcess req env).threadEntry
      = some (env.imageBase + env.entryRva) ∧
    (ExecuteProcess req env).writtenParamsPath = some req.fileName ∧
    (req.waitForProcess = true →
      (ExecuteProcess req env).loggedExitCode = some env.exitCode) ∧
    (req.waitForProcess = false →
      (ExecuteProcess req env).loggedExitCode = none) ∧
    (Event.waitForProcess ∈ (ExecuteProcess req env).trace
      ↔ req.waitForProcess = true) ∧
    (Event.closeTargetHandle ∈ (ExecuteProcess req env).trace
      ↔ req.holdHandleExclusive = false) := by
  unfold ExecuteProcess
  split_ifs <;>
    first
    | (exact fun h => substituteStage_success req env _ _
        (by decide) (by decide) h)
    | (intro h; simp only [failProc, failNoProc] at h; simp at h)

theorem bootstrapTail_holdFrame (req : Request) (env : Env) (tr0 : List Event)
    (disk : Bytes) (hc : Event.closeTargetHandle ∉ tr0) :
    (bootstrapTail { req with holdHandleExclusive := true } env tr0 disk).result
      = (bootstrapTail { req with holdHandleExclusive := false } env tr0 disk).result ∧
    (bootstrapTail { req with holdHandleExclusive := true } env tr0 disk).targetDisk
      = (bootstrapTail { req with holdHandleExclusive := false } env tr0 disk).targetDisk ∧
    (bootstrapTail { req with holdHandleExclusive := true } env tr0 disk).executedImage
      = (bootstrapTail { req with holdHandleExclusive := false } env tr0 disk).executedImage ∧
    (bootstrapTail { req with holdHandleExclusive := true } env tr0 disk).processCreated
      = (bootstrapTail { req with holdHandleExclusive := false } env tr0 disk).processCreated ∧
    (bootstrapTail { req with holdHandleExclusive := true } env tr0 disk).processTerminated
      = (bootstrapTail { req with holdHandleExclusive := false } env tr0 disk).processTerminated ∧
    (bootstrapTail { req with holdHandleExclusive := true } env tr0 disk).threadCreated
      = (bootstrapTail { req with holdHandleExclusive := false } env tr0 disk).threadCreated ∧
    (bootstrapTail { req with holdHandleExclusive := true } env tr0 disk).threadEntry
      = (bootstrapTail { req with holdHandleExclusive := false } env tr0 disk).threadEntry ∧
    (bootstrapTail { req with holdHandleExclusive := true } env tr0 disk).writtenParamsPath
      = (bootstrapTail { req with holdHandleExclusive := false } env tr0 disk).writtenParamsPath ∧
    (bootstrapTail { req with holdHandleExclusive := true } env tr0 disk).loggedExitCode
      = (bootstrapTail { req with holdHandleExclusive := false } env tr0 disk).loggedExitCode ∧
    ((bootstrapTail { req with holdHandleExclusive := false } env tr0 disk).trace).erase
        Event.closeTargetHandle
      = (bootstrapTail { req with holdHandleExclusive := true } env tr0 disk).trace := by
  simp only [bootstrapTail]
  split_ifs <;>
    refine ⟨rfl, rfl, rfl, rfl, rfl, rfl, rfl, rfl, rfl, ?_⟩ <;>
    simp [failProc, List.erase_append_right, hc, List.erase_of_not_mem]


theorem substituteStage_holdFrame (req : Request) (env : Env) (tr0 : List Event)
    (disk : Bytes) (hc : Event.closeTargetHandle ∉ tr0) :
    (substituteStage { req with holdHandleExclusive := true } env tr0 disk).result
      = (substituteStage { req with holdHandleExclusive := false } env tr0 disk).result ∧
    (substituteStage { req with holdHandleExclusive := true } env tr0 disk).targetDisk
      = (substituteStage { req with holdHandleExclusive := false } env tr0 disk).targetDisk ∧
    (substituteStage { req with holdHandleExclusive := true } env tr0 disk).executedImage
      = (substituteStage { req with holdHandleExclusive := false } env tr0 disk).executedImage ∧
    (substituteStage { req with holdHandleExclusive := true } env tr0 disk).processCreated
      = (substituteStage { req with holdHandleExclusive := false } env tr0 disk).processCreated ∧
    (substituteStage { req with holdHandleExclusive := true } env tr0 disk).processTerminated
      = (substituteStage { req with holdHandleExclusive := false } env tr0 disk).processTerminated ∧
    (substituteStage { req with holdHandleExclusive := true } env tr0 disk).threadCreated
      = (substituteStage { req with holdHandleExclusive := false } env tr0 disk).threadCreated ∧
    (substituteStage { req with holdHandleExclusive := true } env tr0 disk).threadEntry
      = (substituteStage { req with holdHandleExclusive := false } env tr0 disk).threadEntry ∧
    (substituteStage { req with holdHandleExclusive := true } env tr0 disk).writtenParamsPath
      = (substituteStage { req with holdHandleExclusive := false } env tr0 disk).writtenParamsPath ∧
    (substituteStage { req with holdHandleExclusive := true } env tr0 disk).loggedExitCode
      = (substituteStage { req with holdHandleExclusive := false } env tr0 disk).loggedExitCode ∧
    ((substituteStage { req with holdHandleExclusive := false } env tr0 disk).trace).erase
        Event.closeTargetHandle
      = (substituteStage { req with holdHandleExclusive := true } env tr0 disk).trace := by
  cases hrw : req.replaceWith <;>
    simp only [substituteStage, hrw] <;>
    split_ifs <;>
    first
    | (exact bootstrapTail_holdFrame req env _ _ (by simp [hc]))
    | (refine ⟨rfl, rfl, rfl, rfl, rfl, rfl, rfl, rfl, rfl, ?_⟩ <;>
       simp [failProc, List.erase_append_right, hc, List.erase_of_not_mem])

theorem ExecuteProcess_holdFrame (req : Request) (env : Env) :
    (ExecuteProcess { req with holdHandleExclusive := true } env).result
      = (ExecuteProcess { req with holdHandleExclusive := false } env).result ∧
    (ExecuteProcess { req with holdHandleExclusive := true } env).targetDisk
      = (ExecuteProcess { req with holdHandleExclusive := false } env).targetDisk ∧
    (ExecuteProcess { req with holdHandleExclusive := true } env).executedImage
      = (ExecuteProcess { req with holdHandleExclusive := false } env).executedImage ∧
    (ExecuteProcess { req with holdHandleExclusive := true } env).processCreated
      = (ExecuteProcess { req with holdHandleExclusive := false } env).processCreated ∧
    (ExecuteProcess { req with holdHandleExclusive := true } env).processTerminated
      = (ExecuteProcess { req with holdHandleExclusive := false } env).processTerminated ∧
    (ExecuteProcess { req with holdHandleExclusive := true } env).threadCreated
      = (ExecuteProcess { req with holdHandleExclusive := false } env).threadCreated ∧
    (ExecuteProcess { req with holdHandleExclusive := true } env).threadEntry
      = (ExecuteProcess { req with holdHandleExclusive := false } env).threadEntry ∧
    (ExecuteProcess { req with holdHandleExclusive := true } env).writtenParamsPath
      = (ExecuteProcess { req with holdHandleExclusive := false } env).writtenParamsPath ∧
    (ExecuteProcess { req with holdHandleExclusive := true } env).loggedExitCode
      = (ExecuteProcess { req with holdHandleExclusive := false } env).loggedExitCode ∧
    ((ExecuteProcess { req with holdHandleExclusive := false } env).trace).erase
        Event.closeTargetHandle
      = (ExecuteProcess { req with holdHandleExclusive := true } env).trace := by
  simp only [ExecuteProcess]
  split_ifs <;>
    first
    | (exact substituteStage_holdFrame req env _ _ (by decide))
    | (refine ⟨rfl, rfl, rfl, rfl, rfl, rfl, rfl, rfl, rfl, ?_⟩ <;>
       simp [failProc, failNoProc, List.erase_of_not_mem])


theorem bootstrapTail_result_frame (req : Request) (env : Env) (x y : Int)
    (tr0 tr0' : List Event) (disk disk' : Bytes) :
    (bootstrapTail req { env with overwriteAfterHr := x, extendSecDirHr := y }
        tr0 disk).result
      = (bootstrapTail req env tr0' disk').result := by
  simp only [bootstrapTail]
  split_ifs <;> rfl

theorem substituteStage_fallbackFrame (req : Request) (env : Env)
    (tr0 : List Event) (disk : Bytes) (x y : Int) :
    (substituteStage req { env with overwriteAfterHr := x, extendSecDirHr := y }
        tr0 disk).result
      = (substituteStage req env tr0 disk).result := by
  cases hrw : req.replaceWith <;>
    simp only [substituteStage, hrw] <;>
    split_ifs <;>
    first
    | (exact bootstrapTail_result_frame req env x y _ _ _ _)
    | rfl

theorem ExecuteProcess_fallbackFrame (req : Request) (env : Env) (x y : Int) :
    (ExecuteProcess req { env with overwriteAfterHr := x, extendSecDirHr := y }).result
      = (ExecuteProcess req env).result := by
  simp only [ExecuteProcess]
  split_ifs <;>
    first
    | rfl
    | (exact substituteStage_fallbackFrame req env _ _ x y)

theorem bootstrapTail_trace_mem (req : Request) (env : Env) (tr0 : List Event)
    (disk : Bytes) (e : Event) (he : e ∈ tr0) :
    e ∈ (bootstrapTail req env tr0 disk).trace := by
  obtain ⟨s, -, htr, -, -, -, -⟩ := bootstrapTail_shape req env tr0 disk
  rw [htr]
  exact List.mem_append_left _ he

theorem substituteStage_pattern (req : Request) (env : Env) (tr0 : List Event)
    (disk : Bytes) (hrw : req.replaceWith = none) :
    (FAILED env.overwritePatternHr = true →
      (substituteStage req env tr0 disk).result
        = Except.error (Err.hresult env.overwritePatternHr) ∧
      (substituteStage req env tr0 disk).processTerminated = true ∧
      (substituteStage req env tr0 disk).threadCreated = false) ∧
    (FAILED env.overwritePatternHr = false →
      (substituteStage req env tr0 disk).targetDisk
        = some (patternTile req.pattern disk.length)) := by
  simp only [substituteStage, hrw]
  split_ifs with h
  · exact ⟨fun _ => ⟨rfl, rfl, rfl⟩, fun hf => by simp [hf] at h⟩
  · refine ⟨fun hf => absurd hf h, fun _ => ?_⟩
    rw [bootstrapTail_disk]
    rfl

theorem substituteStage_replace (req : Request) (env : Env) (tr0 : List Event)
    (disk : Bytes) (p : String) (hrw : req.replaceWith = some p)
    (hopen : env.openReplaceOk = true) :
    (FAILED env.copyReplaceHr = true →
      env.copyReplaceHr ≠ HRESULT_FROM_WIN32 ERROR_USER_MAPPED_FILE →
      (substituteStage req env tr0 disk).result
        = Except.error (Err.hresult env.copyReplaceHr) ∧
      (substituteStage req env tr0 disk).processTerminated = true ∧
      (substituteStage req env tr0 disk).threadCreated = false) ∧
    (env.copyReplaceHr = HRESULT_FROM_WIN32 ERROR_USER_MAPPED_FILE →
      FAILED env.getReplaceSizeHr = false →
      Event.overwriteAfterWithPattern ∈ (substituteStage req env tr0 disk).trace ∧
      (FAILED env.overwriteAfterHr = false →
        Event.extendSecurityDirectory ∈ (substituteStage req env tr0 disk).trace)) := by
  simp only [substituteStage, hrw]
  split_ifs with h1 h2 h3 h4 h5
  · exact absurd h1 (by simp [hopen])
  · constructor
    · intro _ hne
      exact absurd h3 hne
    · intro _ hsz
      simp [hsz] at h4
  · constructor
    · intro _ hne
      exact absurd h3 hne
    · intro _ _
      refine ⟨bootstrapTail_trace_mem req env _ _ _ (by simp), ?_⟩
      intro hov
      simp [hov] at h5
  · constructor
    · intro _ hne
      exact absurd h3 hne
    · intro _ _
      exact ⟨bootstrapTail_trace_mem req env _ _ _ (by simp),
        fun _ => bootstrapTail_trace_mem req env _ _ _ (by simp)⟩
  · constructor
    · intro _ _
      exact ⟨rfl, rfl, rfl⟩
    · intro heq
      exact absurd heq h3
  · constructor
    · intro hf _
      exact absurd hf h2
    · intro heq _
      have hfail : FAILED env.copyReplaceHr = true := by rw [heq]; decide
      exact absurd hfail h2


/-- A request in pattern-overwrite mode (§8 scenario: calc.exe → decoy.bin,
fill pattern 0x00, wait for exit). -/
def reqPattern : Request :=
  { targetBinary := "calc.exe", fileName := "decoy.bin", replaceWith := none,
    pattern := [0], waitForProcess := true, holdHandleExclusive := false }

/-- A request in replace-with-file mode. -/
def reqReplace : Request :=
  { reqPattern with replaceWith := some "notepad.exe" }

/-- An environment in which every call succeeds; the source image is
`[1, 2, 3, 4]` and the target process exits with code 7. -/
def envHappy : Env :=
  { openSourceOk := true, openSourceErr := 2, openTargetOk := true,
    openTargetErr := 3, copyHr := 0, sourceBytes := [1, 2, 3, 4],
    createSectionStatus := 0, createProcessStatus := 0, entryHr := 0,
    entryRva := 2, openReplaceOk := true, openReplaceErr := 4,
    replaceBytes := [9, 9], copyReplaceHr := 0, getReplaceSizeHr := 0,
    overwriteAfterHr := 0, extendSecDirHr := 0, overwritePatternHr := 0,
    queryInfoStatus := 0, readPebOk := true, readPebErr := 5,
    imageBase := 100, writeParamsHr := 0, createThreadStatus := 0,
    exitCode := 7, partialWriteDisk := [] }

/-- `envHappy` with the pattern overwrite failing. -/
def envPatFail : Env := { envHappy with overwritePatternHr := -7 }

/-- `envHappy` with the replacement copy failing with a non-truncation
error. -/
def envCopyFatal : Env := { envHappy with copyReplaceHr := -5 }

/-- `envHappy` with the replacement copy failing with the mapped-file
truncation error. -/
def envMapped : Env :=
  { envHappy with
      copyReplaceHr := HRESULT_FROM_WIN32 ERROR_USER_MAPPED_FILE }

/-- C7: whenever the process object was constructed, the code it executes
is the source's bytes as copied into the target at section-creation time,
whatever the environment later does to the file. -/
theorem trueBytesExecuted (req : Request) (env : Env) :
    (ExecuteProcess req env).processCreated = true →
    (ExecuteProcess req env).executedImage = some env.sourceBytes :=
  ExecuteProcess_img req env

theorem trueBytesExecuted_witness :
    (ExecuteProcess reqPattern envHappy).processCreated = true ∧
    (ExecuteProcess reqPattern envHappy).executedImage = some [1, 2, 3, 4] :=
  ⟨rfl, trueBytesExecuted reqPattern envHappy rfl⟩

/-- C1: in every run, the image section is created (from the target's
source-copied bytes) and the process object exists before any
content-substitution write, and the initial thread is created only after
the process parameters were written and every substitution write is done. -/
theorem substitutionOrdering (req : Request) (env : Env) :
    (RequiredBefore Event.createSection Event.copyReplaceToTarget
        (ExecuteProcess req env).trace ∧
     RequiredBefore Event.createSection Event.overwriteAfterWithPattern
        (ExecuteProcess req env).trace ∧
     RequiredBefore Event.createSection Event.overwritePattern
        (ExecuteProcess req env).trace) ∧
    (RequiredBefore Event.createProcess Event.copyReplaceToTarget
        (ExecuteProcess req env).trace ∧
     RequiredBefore Event.createProcess Event.overwriteAfterWithPattern
        (ExecuteProcess req env).trace ∧
     RequiredBefore Event.createProcess Event.overwritePattern
        (ExecuteProcess req env).trace) ∧
    ((Event.copyReplaceToTarget ∈ (ExecuteProcess req env).trace ∨
      Event.overwriteAfterWithPattern ∈ (ExecuteProcess req env).trace ∨
      Event.overwritePattern ∈ (ExecuteProcess req env).trace) →
      (ExecuteProcess req env).executedImage = some env.sourceBytes) ∧
    RequiredBefore Event.writeProcessParameters Event.createThread
      (ExecuteProcess req env).trace ∧
    (BeforeIfBoth Event.copyReplaceToTarget Event.createThread
        (ExecuteProcess req env).trace ∧
     BeforeIfBoth Event.overwriteAfterWithPattern Event.createThread
        (ExecuteProcess req env).trace ∧
     BeforeIfBoth Event.overwritePattern Event.createThread
        (ExecuteProcess req env).trace) := by
  obtain ⟨s, hs, htr, hpc, -, -, -⟩ := ExecuteProcess_shape req env
  have key1 : ∀ x ∈ execShapes,
      RequiredBefore Event.createSection Event.copyReplaceToTarget x.1 ∧
      RequiredBefore Event.createSection Event.overwriteAfterWithPattern x.1 ∧
      RequiredBefore Event.createSection Event.overwritePattern x.1 := by
    decide
  have key2 : ∀ x ∈ execShapes,
      RequiredBefore Event.createProcess Event.copyReplaceToTarget x.1 ∧
      RequiredBefore Event.createProcess Event.overwriteAfterWithPattern x.1 ∧
      RequiredBefore Event.createProcess Event.overwritePattern x.1 := by
    decide
  have key3 : ∀ x ∈ execShapes,
      (Event.copyReplaceToTarget ∈ x.1 ∨
       Event.overwriteAfterWithPattern ∈ x.1 ∨
       Event.overwritePattern ∈ x.1) → x.2.1 = true := by
    decide
  have key4 : ∀ x ∈ execShapes,
      RequiredBefore Event.writeProcessParameters Event.createThread x.1 ∧
      (BeforeIfBoth Event.copyReplaceToTarget Event.createThread x.1 ∧
       BeforeIfBoth Event.overwriteAfterWithPattern Event.createThread x.1 ∧
       BeforeIfBoth Event.overwritePattern Event.createThread x.1) := by
    decide
  refine ⟨by rw [htr]; exact key1 s hs, by rw [htr]; exact key2 s hs, ?_,
    by rw [htr]; exact (key4 s hs).1, by rw [htr]; exact (key4 s hs).2⟩
  intro hmem
  apply ExecuteProcess_img req env
  rw [htr] at hmem
  rw [hpc]
  exact key3 s hs hmem

theorem substitutionOrdering_witness :
    Event.overwritePattern ∈ (ExecuteProcess reqPattern envHappy).trace ∧
    (ExecuteProcess reqPattern envHappy).executedImage = some [1, 2, 3, 4] := by
  have h := substitutionOrdering reqPattern envHappy
  exact ⟨by decide, h.2.2.1 (Or.inr (Or.inr (by decide)))⟩

/-- C2: errors make the guard terminate the process exactly when one was
created, the thread is then never created, and the propagated error is the
failing call's own code; the guard is disarmed (and the process left
alive) exactly on thread-creation success, and only after the thread
exists. -/
theorem rollbackGuard (req : Request) (env : Env) :
    (∀ e : Err, (ExecuteProcess req env).result = Except.error e →
      (ExecuteProcess req env).processTerminated
        = (ExecuteProcess req env).processCreated ∧
      (ExecuteProcess req env).threadCreated = false ∧
      e ∈ envErrors env) ∧
    ((ExecuteProcess req env).threadCreated = true →
      (ExecuteProcess req env).processTerminated = false ∧
      Event.disarmGuard ∈ (ExecuteProcess req env).trace ∧
      (ExecuteProcess req env).result = Except.ok 0) ∧
    RequiredBefore Event.createThread Event.disarmGuard
      (ExecuteProcess req env).trace := by
  obtain ⟨s, hs, htr, hpc, hpt, htc, hok⟩ := ExecuteProcess_shape req env
  have key : ∀ x ∈ execShapes,
      (x.2.2.2.2 = false → x.2.2.1 = x.2.1 ∧ x.2.2.2.1 = false) ∧
      (x.2.2.2.1 = true → x.2.2.1 = false ∧ Event.disarmGuard ∈ x.1) ∧
      RequiredBefore Event.createThread Event.disarmGuard x.1 := by
    decide
  have hk := key s hs
  refine ⟨?_, ?_, by rw [htr]; exact hk.2.2⟩
  · intro e he
    have hko : resultOk (ExecuteProcess req env).result = false := by
      rw [he]; rfl
    rw [hok] at hko
    obtain ⟨hA, hB⟩ := hk.1 hko
    exact ⟨by rw [hpt, hpc, hA], by rw [htc, hB], ExecuteProcess_err req env e he⟩
  · intro h
    have hcase := hk.2.1 (by rw [← htc, h])
    exact ⟨by rw [hpt, hcase.1], by rw [htr]; exact hcase.2,
      (ExecuteProcess_success req env h).1⟩

theorem rollbackGuard_witness :
    (ExecuteProcess reqPattern envPatFail).result
      = Except.error (Err.hresult (-7)) ∧
    (ExecuteProcess reqPattern envPatFail).processTerminated = true ∧
    Err.hresult (-7) ∈ envErrors envPatFail := by
  refine ⟨rfl, rfl, ?_⟩
  exact ((rollbackGuard reqPattern envPatFail).1 (Err.hresult (-7)) rfl).2.2


/-- C3: in replace-with-file mode (pipeline having reached the replacement
copy), a copy failure with any error other than the mapped-file truncation
error is fatal and propagated verbatim, with the guard terminating the
process; on the mapped-file truncation error the pipeline instead runs the
hide-tail fallback and then the signature-directory extension, and the
result of the call never depends on the outcome of those two fallback
steps. -/
theorem replaceModeCopyFailurePolicy (req : Request) (env : Env) (x y : Int)
    (p : String) (hrw : req.replaceWith = some p)
    (h1 : env.openSourceOk = true) (h2 : env.openTargetOk = true)
    (h3 : FAILED env.copyHr = false)
    (h4 : NT_SUCCESS env.createSectionStatus = true)
    (h5 : NT_SUCCESS env.createProcessStatus = true)
    (h6 : FAILED env.entryHr = false)
    (hopen : env.openReplaceOk = true) :
    ((FAILED env.copyReplaceHr = true →
      env.copyReplaceHr ≠ HRESULT_FROM_WIN32 ERROR_USER_MAPPED_FILE →
      (ExecuteProcess req env).result
        = Except.error (Err.hresult env.copyReplaceHr) ∧
      (ExecuteProcess req env).processTerminated = true ∧
      (ExecuteProcess req env).threadCreated = false) ∧
    (env.copyReplaceHr = HRESULT_FROM_WIN32 ERROR_USER_MAPPED_FILE →
      FAILED env.getReplaceSizeHr = false →
      Event.overwriteAfterWithPattern ∈ (ExecuteProcess req env).trace ∧
      (FAILED env.overwriteAfterHr = false →
        Event.extendSecurityDirectory ∈ (ExecuteProcess req env).trace))) ∧
    (ExecuteProcess req
        { env with overwriteAfterHr := x, extendSecDirHr := y }).result
      = (ExecuteProcess req env).result := by
  refine ⟨?_, ExecuteProcess_fallbackFrame req env x y⟩
  simp only [ExecuteProcess]
  split_ifs with g1 g2 g3 g4 g5 g6
  · exact absurd g1 (by simp [h1])
  · exact absurd g2 (by simp [h2])
  · exact absurd g3 (by simp [h3])
  · exact absurd g4 (by simp [h4])
  · exact absurd g5 (by simp [h5])
  · exact absurd g6 (by simp [h6])
  · exact substituteStage_replace req env _ _ p hrw hopen

theorem replaceModeCopyFailurePolicy_witness :
    Event.overwriteAfterWithPattern
      ∈ (ExecuteProcess reqReplace envMapped).trace ∧
    Event.extendSecurityDirectory
      ∈ (ExecuteProcess reqReplace envMapped).trace ∧
    (ExecuteProcess reqReplace envCopyFatal).result
      = Except.error (Err.hresult (-5)) := by
  have hm := (replaceModeCopyFailurePolicy reqReplace envMapped 0 0
    "notepad.exe" rfl rfl rfl rfl rfl rfl rfl rfl).1.2 rfl rfl
  have hf := ((replaceModeCopyFailurePolicy reqReplace envCopyFatal 0 0
    "notepad.exe" rfl rfl rfl rfl rfl rfl rfl rfl).1.1 rfl (by decide)).1
  exact ⟨hm.1, hm.2 rfl, hf⟩

/-- C4: in pattern-overwrite mode (pipeline having reached the overwrite),
a failing overwrite is fatal: its error is propagated verbatim and the
guard terminates the process; a successful overwrite leaves the whole file
equal to the pattern tiled over the original length, while the executed
image stays the source's bytes. -/
theorem patternOverwritePolicy (req : Request) (env : Env)
    (hrw : req.replaceWith = none)
    (h1 : env.openSourceOk = true) (h2 : env.openTargetOk = true)
    (h3 : FAILED env.copyHr = false)
    (h4 : NT_SUCCESS env.createSectionStatus = true)
    (h5 : NT_SUCCESS env.createProcessStatus = true)
    (h6 : FAILED env.entryHr = false) :
    ((FAILED env.overwritePatternHr = true →
      (ExecuteProcess req env).result
        = Except.error (Err.hresult env.overwritePatternHr) ∧
      (ExecuteProcess req env).processTerminated = true ∧
      (ExecuteProcess req env).threadCreated = false) ∧
    (FAILED env.overwritePatternHr = false →
      (ExecuteProcess req env).targetDisk
        = some (patternTile req.pattern env.sourceBytes.length))) ∧
    ((ExecuteProcess req env).processCreated = true →
      (ExecuteProcess req env).executedImage = some env.sourceBytes) := by
  refine ⟨?_, ExecuteProcess_img req env⟩
  simp only [ExecuteProcess]
  split_ifs with g1 g2 g3 g4 g5 g6
  · exact absurd g1 (by simp [h1])
  · exact absurd g2 (by simp [h2])
  · exact absurd g3 (by simp [h3])
  · exact absurd g4 (by simp [h4])
  · exact absurd g5 (by simp [h5])
  · exact absurd g6 (by simp [h6])
  · exact substituteStage_pattern req env _ _ hrw

theorem patternOverwritePolicy_witness :
    (ExecuteProcess reqPattern envHappy).targetDisk = some [0, 0, 0, 0] ∧
    (ExecuteProcess reqPattern envHappy).executedImage = some [1, 2, 3, 4] ∧
    (ExecuteProcess reqPattern envPatFail).result
      = Except.error (Err.hresult (-7)) := by
  have hok := (patternOverwritePolicy reqPattern envHappy rfl
    rfl rfl rfl rfl rfl rfl).1.2 rfl
  have him := (patternOverwritePolicy reqPattern envHappy rfl
    rfl rfl rfl rfl rfl rfl).2 rfl
  have hfail := ((patternOverwritePolicy reqPattern envPatFail rfl
    rfl rfl rfl rfl rfl rfl).1.1 rfl).1
  exact ⟨hok.trans (by decide), him, hfail⟩


/-- C5 counterexample: with WaitForProcess = true and the target process
exiting with code 7, `ExecuteProcess` retrieves (and logs) 7 but returns
`S_OK` (0): the exit code is not the value returned to the caller. -/
theorem exitCodeNotReturned :
    (ExecuteProcess reqPattern envHappy).loggedExitCode = some 7 ∧
    (ExecuteProcess reqPattern envHappy).result = Except.ok 0 ∧
    (ExecuteProcess reqPattern envHappy).result ≠ Except.ok 7 := by
  refine ⟨rfl, rfl, ?_⟩
  intro h
  rw [show (ExecuteProcess reqPattern envHappy).result = Except.ok 0 from rfl]
    at h
  simp at h

/-- C5 (amended): whenever the thread was created, with WaitForProcess the
call blocks on the process and retrieves its exit code (reporting it via
the log); the function's own return value is `S_OK`. Without
WaitForProcess it returns at once, performs no wait, and leaves the
process running. -/
theorem waitBehaviour (req : Request) (env : Env) :
    (ExecuteProcess req env).threadCreated = true →
    (ExecuteProcess req env).result = Except.ok 0 ∧
    (req.waitForProcess = true →
      Event.waitForProcess ∈ (ExecuteProcess req env).trace ∧
      (ExecuteProcess req env).loggedExitCode = some env.exitCode) ∧
    (req.waitForProcess = false →
      Event.waitForProcess ∉ (ExecuteProcess req env).trace ∧
      (ExecuteProcess req env).loggedExitCode = none ∧
      (ExecuteProcess req env).processTerminated = false) := by
  intro h
  obtain ⟨s, hs, htr, -, hpt, htc, -⟩ := ExecuteProcess_shape req env
  have key : ∀ x ∈ execShapes, x.2.2.2.1 = true → x.2.2.1 = false := by
    decide
  have hptf : (ExecuteProcess req env).processTerminated = false := by
    rw [hpt]
    exact key s hs (by rw [← htc, h])
  obtain ⟨hres, -, -, hlog1, hlog2, hwiff, -⟩ := ExecuteProcess_success req env h
  refine ⟨hres, fun hw => ⟨hwiff.2 hw, hlog1 hw⟩,
    fun hw => ⟨fun hmem => ?_, hlog2 hw, hptf⟩⟩
  rw [hw] at hwiff
  exact absurd (hwiff.1 hmem) (by decide)

theorem waitBehaviour_witness :
    Event.waitForProcess ∈ (ExecuteProcess reqPattern envHappy).trace ∧
    (ExecuteProcess reqPattern envHappy).loggedExitCode = some 7 ∧
    (ExecuteProcess reqPattern envHappy).result = Except.ok 0 := by
  have h := waitBehaviour reqPattern envHappy rfl
  exact ⟨(h.2.1 rfl).1, (h.2.1 rfl).2, h.1⟩

/-- C6: after a successful bootstrap the target handle is closed at once
exactly when exclusive access was not requested (with exclusive access it
stays open for the rest of the call), and the flag changes nothing else
about the run: every other outcome component is identical between the two
settings, the traces differing only by the close-target event. -/
theorem exclusiveHandlePolicy (req : Request) (env : Env) :
    ((ExecuteProcess req env).threadCreated = true →
      (Event.closeTargetHandle ∈ (ExecuteProcess req env).trace
        ↔ req.holdHandleExclusive = false)) ∧
    ((ExecuteProcess { req with holdHandleExclusive := true } env).result
      = (ExecuteProcess { req with holdHandleExclusive := false } env).result ∧
    (ExecuteProcess { req with holdHandleExclusive := true } env).targetDisk
      = (ExecuteProcess { req with holdHandleExclusive := false } env).targetDisk ∧
    (ExecuteProcess { req with holdHandleExclusive := true } env).executedImage
      = (ExecuteProcess { req with holdHandleExclusive := false } env).executedImage ∧
    (ExecuteProcess { req with holdHandleExclusive := true } env).processCreated
      = (ExecuteProcess { req with holdHandleExclusive := false } env).processCreated ∧
    (ExecuteProcess { req with holdHandleExclusive := true } env).processTerminated
      = (ExecuteProcess { req with holdHandleExclusive := false } env).processTerminated ∧
    (ExecuteProcess { req with holdHandleExclusive := true } env).threadCreated
      = (ExecuteProcess { req with holdHandleExclusive := false } env).threadCreated ∧
    (ExecuteProcess { req with holdHandleExclusive := true } env).threadEntry
      = (ExecuteProcess { req with holdHandleExclusive := false } env).threadEntry ∧
    (ExecuteProcess { req with holdHandleExclusive := true } env).writtenParamsPath
      = (ExecuteProcess { req with holdHandleExclusive := false } env).writtenParamsPath ∧
    (ExecuteProcess { req with holdHandleExclusive := true } env).loggedExitCode
      = (ExecuteProcess { req with holdHandleExclusive := false } env).loggedExitCode ∧
    ((ExecuteProcess { req with holdHandleExclusive := false } env).trace).erase
        Event.closeTargetHandle
      = (ExecuteProcess { req with holdHandleExclusive := true } env).trace) :=
  ⟨fun h => (ExecuteProcess_success req env h).2.2.2.2.2.2,
   ExecuteProcess_holdFrame req env⟩

theorem exclusiveHandlePolicy_witness :
    Event.closeTargetHandle ∈ (ExecuteProcess reqPattern envHappy).trace ∧
    Event.closeTargetHandle ∉
      (ExecuteProcess { reqPattern with holdHandleExclusive := true }
        envHappy).trace := by
  have h1 := (exclusiveHandlePolicy reqPattern envHappy).1 rfl
  have h2 := (exclusiveHandlePolicy
    { reqPattern with holdHandleExclusive := true } envHappy).1 rfl
  exact ⟨h1.2 rfl, fun hmem => absurd (h2.1 hmem) (by decide)⟩


/-- C8: the entry RVA is read from the target's headers after the process
object exists and before any substitution write; bootstrap then reads the
process information and PEB, writes the process parameters (the decoy
target path), and creates the initial thread at image base + entry RVA,
in that order. -/
theorem bootstrapOrdering (req : Request) (env : Env) :
    RequiredBefore Event.createProcess Event.getEntryRva
      (ExecuteProcess req env).trace ∧
    (RequiredBefore Event.getEntryRva Event.copyReplaceToTarget
        (ExecuteProcess req env).trace ∧
     RequiredBefore Event.getEntryRva Event.overwriteAfterWithPattern
        (ExecuteProcess req env).trace ∧
     RequiredBefore Event.getEntryRva Event.overwritePattern
        (ExecuteProcess req env).trace) ∧
    RequiredBefore Event.queryProcessInfo Event.readPeb
      (ExecuteProcess req env).trace ∧
    RequiredBefore Event.readPeb Event.writeProcessParameters
      (ExecuteProcess req env).trace ∧
    RequiredBefore Event.writeProcessParameters Event.createThread
      (ExecuteProcess req env).trace ∧
    ((ExecuteProcess req env).threadCreated = true →
      (ExecuteProcess req env).threadEntry
        = some (env.imageBase + env.entryRva) ∧
      (ExecuteProcess req env).writtenParamsPath = some req.fileName) := by
  obtain ⟨s, hs, htr, -, -, -, -⟩ := ExecuteProcess_shape req env
  have key1 : ∀ x ∈ execShapes,
      RequiredBefore Event.createProcess Event.getEntryRva x.1 ∧
      (RequiredBefore Event.getEntryRva Event.copyReplaceToTarget x.1 ∧
       RequiredBefore Event.getEntryRva Event.overwriteAfterWithPattern x.1 ∧
       RequiredBefore Event.getEntryRva Event.overwritePattern x.1) := by
    decide
  have key2 : ∀ x ∈ execShapes,
      RequiredBefore Event.queryProcessInfo Event.readPeb x.1 ∧
      RequiredBefore Event.readPeb Event.writeProcessParameters x.1 ∧
      RequiredBefore Event.writeProcessParameters Event.createThread x.1 := by
    decide
  refine ⟨by rw [htr]; exact (key1 s hs).1, by rw [htr]; exact (key1 s hs).2,
    by rw [htr]; exact (key2 s hs).1, by rw [htr]; exact (key2 s hs).2.1,
    by rw [htr]; exact (key2 s hs).2.2, fun h => ?_⟩
  obtain ⟨-, hentry, hwp, -, -, -, -⟩ := ExecuteProcess_success req env h
  exact ⟨hentry, hwp⟩

theorem bootstrapOrdering_witness :
    (ExecuteProcess reqPattern envHappy).threadEntry = some 102 ∧
    (ExecuteProcess reqPattern envHappy).writtenParamsPath
      = some "decoy.bin" := by
  have h := (bootstrapOrdering reqPattern envHappy).2.2.2.2.2 rfl
  exact ⟨h.1, h.2⟩

/-- C9: on every run that constructs the process, the section handle is
closed immediately after process creation, and no section-consuming call
(section or process creation) occurs after that close. -/
theorem sectionHandleReleased (req : Request) (env : Env) :
    ((ExecuteProcess req env).processCreated = true →
      ImmediatelyAfter Event.closeSectionHandle Event.createProcess
        (ExecuteProcess req env).trace) ∧
    (Event.closeSectionHandle ∈ (ExecuteProcess req env).trace →
      Event.createSection ∉
        (ExecuteProcess req env).trace.drop
          ((ExecuteProcess req env).trace.indexOf Event.closeSectionHandle + 1) ∧
      Event.createProcess ∉
        (ExecuteProcess req env).trace.drop
          ((ExecuteProcess req env).trace.indexOf Event.closeSectionHandle + 1)) := by
  obtain ⟨s, hs, htr, hpc, -, -, -⟩ := ExecuteProcess_shape req env
  have key1 : ∀ x ∈ execShapes, x.2.1 = true →
      ImmediatelyAfter Event.closeSectionHandle Event.createProcess x.1 := by
    decide
  have key2 : ∀ x ∈ execShapes, Event.closeSectionHandle ∈ x.1 →
      Event.createSection ∉
        x.1.drop (x.1.indexOf Event.closeSectionHandle + 1) ∧
      Event.createProcess ∉
        x.1.drop (x.1.indexOf Event.closeSectionHandle + 1) := by
    decide
  constructor
  · intro h
    rw [htr]
    exact key1 s hs (by rw [← hpc, h])
  · intro hmem
    rw [htr] at hmem ⊢
    exact key2 s hs hmem

theorem sectionHandleReleased_witness :
    ImmediatelyAfter Event.closeSectionHandle Event.createProcess
      (ExecuteProcess reqPattern envHappy).trace ∧
    Event.createProcess ∉
      (ExecuteProcess reqPattern envHappy).trace.drop
        ((ExecuteProcess reqPattern envHappy).trace.indexOf
          Event.closeSectionHandle + 1) := by
  have h := sectionHandleReleased reqPattern envHappy
  exact ⟨h.1 rfl, (h.2 (by decide)).2⟩

/-- C10: the source handle is closed immediately after the copy into the
target succeeds and before the image section is created, and no
source-consuming call occurs after that close. -/
theorem sourceHandleClosed (req : Request) (env : Env) :
    (Event.closeSourceHandle ∈ (ExecuteProcess req env).trace →
      ImmediatelyAfter Event.closeSourceHandle Event.copySourceToTarget
        (ExecuteProcess req env).trace) ∧
    RequiredBefore Event.closeSourceHandle Event.createSection
      (ExecuteProcess req env).trace ∧
    (Event.closeSourceHandle ∈ (ExecuteProcess req env).trace →
      Event.openSource ∉
        (ExecuteProcess req env).trace.drop
          ((ExecuteProcess req env).trace.indexOf Event.closeSourceHandle + 1) ∧
      Event.copySourceToTarget ∉
        (ExecuteProcess req env).trace.drop
          ((ExecuteProcess req env).trace.indexOf Event.closeSourceHandle + 1)) := by
  obtain ⟨s, hs, htr, -, -, -, -⟩ := ExecuteProcess_shape req env
  have key1 : ∀ x ∈ execShapes, Event.closeSourceHandle ∈ x.1 →
      ImmediatelyAfter Event.closeSourceHandle Event.copySourceToTarget x.1 := by
    decide
  have key2 : ∀ x ∈ execShapes,
      RequiredBefore Event.closeSourceHandle Event.createSection x.1 := by
    decide
  have key3 : ∀ x ∈ execShapes, Event.closeSourceHandle ∈ x.1 →
      Event.openSource ∉
        x.1.drop (x.1.indexOf Event.closeSourceHandle + 1) ∧
      Event.copySourceToTarget ∉
        x.1.drop (x.1.indexOf Event.closeSourceHandle + 1) := by
    decide
  refine ⟨?_, by rw [htr]; exact key2 s hs, ?_⟩
  · intro hmem
    rw [htr] at hmem ⊢
    exact key1 s hs hmem
  · intro hmem
    rw [htr] at hmem ⊢
    exact key3 s hs hmem

theorem sourceHandleClosed_witness :
    ImmediatelyAfter Event.closeSourceHandle Event.copySourceToTarget
      (ExecuteProcess reqPattern envHappy).trace ∧
    Event.copySourceToTarget ∉
      (ExecuteProcess reqPattern envHappy).trace.drop
        ((ExecuteProcess reqPattern envHappy).trace.indexOf
          Event.closeSourceHandle + 1) := by
  have h := sourceHandleClosed reqPattern envHappy
  exact ⟨h.1 (by decide), (h.2.2 (by decide)).2⟩

end Herpaderping
